import Mathlib

/-!
Shallow embedding of the pyobis client library (files `pyobis/obisutils.py`
and `pyobis/taxa/taxa.py`) and proofs about its URL-building, parameter
normalisation, response validation and facade-state behaviour.

Python values that flow through the library (contents of the `args`
dictionaries, JSON-decoded response bodies) are modelled by the inductive
type `Json`; the Python value `None` is `Json.null`.  Python exceptions are
modelled by the `PyError` type and fallible code returns `Except PyError _`.
Network responses are modelled by an explicit `Response` record; the JSON
decoding performed by the external `requests` library (`out.json()`) is the
`jsonResult` field of that record.
-/

/-- Python values as they occur in this library: `None`, strings, integers,
booleans, JSON arrays and JSON objects (the latter also model Python dicts
decoded from response bodies). -/
inductive Json where
| null : Json
| str (s : String) : Json
| num (n : Int) : Json
| bool (b : Bool) : Json
| arr (xs : List Json) : Json
| obj (fields : List (String × Json)) : Json

/-- `v is None` in Python: identity with the `None` object. -/
def Json.isNull : Json → Bool
| .null => true
| _ => false

/-- Python truthiness of the values above (`bool(v)`). -/
def Json.truthy : Json → Bool
| .null => false
| .str s => !s.isEmpty
| .num n => n != 0
| .bool b => b
| .arr xs => !xs.isEmpty
| .obj fs => !fs.isEmpty

/-- Python `str(v)` for the scalar values that actually reach `urlencode`
and the f-string in `lookup_taxon` in this library (strings, ints, bools,
`None`).  Containers never reach those call sites for these endpoints, so
their Python `repr` form is not modelled. -/
def Json.pyStr : Json → String
| .null => "None"
| .str s => s
| .num n => toString n
| .bool b => if b then "True" else "False"
| .arr _ => ""
| .obj _ => ""

/-- Python exceptions raised by the modelled code paths. -/
inductive PyError where
| typeError : PyError
| keyError (k : String) : PyError
| indexError : PyError
| attributeError (a : String) : PyError
| httpError (status : Nat) : PyError
| noResult (msg : String) : PyError
| jsonDecodeError : PyError
deriving DecidableEq

/-- An argument dictionary: Python dicts preserve insertion order, so the
model is an association list in insertion order. -/
abbrev Args := List (String × Json)

/-- `d[k]` on a Python dict: the value when the key is present (the stored
value may itself be `None`), a `KeyError` otherwise. -/
def dictGet (d : Args) (k : String) : Except PyError Json :=
match List.lookup k d with
| some v => .ok v
| none => .error (.keyError k)

/-- `d[k] = v` on a Python dict: update in place when the key exists,
append at the end otherwise (insertion-order semantics). -/
def dictSet (d : Args) (k : String) (v : Json) : Args :=
if (List.lookup k d).isSome then
  d.map (fun kv => if kv.1 = k then (k, v) else kv)
else
  d ++ [(k, v)]

/-- Uppercase hex digit of `n < 16`, as used by `urllib.parse.quote`. -/
def hexDigit (n : Nat) : Char :=
if n < 10 then Char.ofNat (48 + n) else Char.ofNat (55 + n)

/-- `%XX` escape of one byte. -/
def percentByte (b : Nat) : String :=
String.mk ['%', hexDigit (b / 16), hexDigit (b % 16)]

/-- UTF-8 bytes of one character (as `urllib.parse.quote` encodes
non-ASCII text before escaping). -/
def utf8Bytes (c : Char) : List Nat :=
let n := c.toNat
if n < 0x80 then [n]
else if n < 0x800 then [0xC0 + n / 0x40, 0x80 + n % 0x40]
else if n < 0x10000 then
  [0xE0 + n / 0x1000, 0x80 + (n / 0x40) % 0x40, 0x80 + n % 0x40]
else
  [0xF0 + n / 0x40000, 0x80 + (n / 0x1000) % 0x40, 0x80 + (n / 0x40) % 0x40, 0x80 + n % 0x40]

/-- Characters `urllib.parse.quote` never escapes: ASCII letters, digits,
`_`, `.`, `-`, `~` (with `quote_plus`'s default empty `safe` set). -/
def quoteSafe (c : Char) : Bool :=
c.isAlpha || c.isDigit || c = '_' || c = '.' || c = '-' || c = '~'

/-- One character under `urllib.parse.quote_plus`: a space becomes `+`,
safe characters pass through, everything else is percent-escaped. -/
def quotePlusChar (c : Char) : String :=
if c = ' ' then "+"
else if quoteSafe c then String.singleton c
else String.join ((utf8Bytes c).map percentByte)

/-- `urllib.parse.quote_plus` on a string. -/
def quote_plus (s : String) : String :=
String.join (s.data.map quotePlusChar)

/-- The `k=v` pairs `urllib.parse.urlencode` produces for a dict, in the
dict's iteration order, before they are joined with `&`. -/
def encodePairs (d : Args) : List String :=
d.map (fun kv => quote_plus kv.1 ++ "=" ++ quote_plus kv.2.pyStr)

/-- `urllib.parse.urlencode` on a dict: `k=v` pairs joined with `&`. -/
def urlencode (d : Args) : String :=
String.intercalate "&" (encodePairs d)

/-- The dict comprehension `{k: v for k, v in args.items() if v is not None}`
used before every `urlencode` call in the library. -/
def dropNone (d : Args) : Args :=
d.filter (fun kv => !kv.2.isNull)

/-- `obisutils.obis_baseurl`. -/
def obis_baseurl : String := "https://api.obis.org/v3/"

/-- `obisutils.build_api_url`:
`url + "?" + urlencode({k: v for k, v in args.items() if v is not None})`. -/
def build_api_url (url : String) (args : Args) : String :=
url ++ "?" ++ urlencode (dropNone args)

/-- Possible dynamic types of the `scientificname` argument reaching
`handle_arrstr`: `None`, a `str`, or any other iterable of strings. -/
inductive StrArg where
| pynone : StrArg
| str (s : String) : StrArg
| arr (xs : List String) : StrArg

/-- `obisutils.handle_arrstr`: `None` falls through the `pass` branch and
the function returns `None`; a `str` is returned unchanged; anything else
is `",".join(x)`. -/
def handle_arrstr : StrArg → Option String
| .pynone => none
| .str s => some s
| .arr xs => some (String.intercalate "," xs)

/-- Possible dynamic types of the argument reaching `handle_arrint`:
`None`, an `int`, or any other iterable of ints. -/
inductive IntArg where
| pynone : IntArg
| int (n : Int) : IntArg
| arr (xs : List Int) : IntArg

/-- A Python value that is either still an `int` or a `str`, the two
possible non-`None` results of `handle_arrint`. -/
inductive IntOrStr where
| int (n : Int) : IntOrStr
| str (s : String) : IntOrStr
deriving DecidableEq

/-- `obisutils.handle_arrint`: `None` falls through the `pass` branch and
the function returns `None`; an `int` is returned unchanged (still an
`int`); anything else is `",".join(map(str, x))`. -/
def handle_arrint : IntArg → Option IntOrStr
| .pynone => none
| .int n => some (.int n)
| .arr xs => some (.str (String.intercalate "," (xs.map toString)))

/-- An HTTP response as seen by `obis_GET`: the status code, the
`content-type` header, and the outcome of the external `requests` library's
`out.json()` JSON decoding of the body (`.error .jsonDecodeError` when the
body is not valid JSON). -/
structure Response where
  status : Nat
  contentType : String
  jsonResult : Except PyError Json

/-- `requests.Response.raise_for_status()`: raises an HTTP error exactly
when the status code is 4xx or 5xx. -/
def raise_for_status (r : Response) : Except PyError Unit :=
if 400 ≤ r.status ∧ r.status < 600 then .error (.httpError r.status) else .ok ()

/-- `obisutils.stopifnot`: raises `NoResultException` when the observed
content type differs from the expected one. -/
def stopifnot (x ctype : String) : Except PyError Unit :=
if x ≠ ctype then .error (.noResult ("content-type did not equal " ++ ctype)) else .ok ()

/-- Response handling of `obisutils.obis_GET`: `out.raise_for_status()`,
then `stopifnot(out.headers["content-type"], ctype)`, then `out.json()`. -/
def obis_GET (resp : Response) (ctype : String) : Except PyError Json := do
  raise_for_status resp
  stopifnot resp.contentType ctype
  resp.jsonResult

/-- The content type the taxa facade expects on every endpoint. -/
def jsonCtype : String := "application/json; charset=utf-8"

/-- Caller-supplied transport keyword options (`**kwargs`), as a Python
keyword dictionary. -/
abbrev Kwargs := List (String × Json)

/-- One invocation of `requests.get`, recording every argument the library
hands to the transport layer. -/
structure RequestsGetCall where
  url : String
  params : Option Args
  headers : Option (List (String × String))
  stream : Bool
  kwargs : Kwargs

/-- The fixed header dict of `obis_GET`. -/
def obisHeaders : List (String × String) :=
[("User-Agent", "Mozilla/5.0 (X11; CrOS x86_64 12871.102.0) AppleWebKit/537.36 (KHTML, like Gecko) Chrome/81.0.4044.141 Safari/537.36"),
 ("Connection", "close")]

/-- The `requests.get(url, params=args, headers=headers, **kwargs)` call
issued by `obis_GET`. -/
def obis_GET_request (url : String) (args : Args) (kwargs : Kwargs) : RequestsGetCall :=
⟨url, some args, some obisHeaders, false, kwargs⟩

/-- The `requests.get(url, stream=True, **kwargs)` call issued by
`obisutils.obis_write_disk`. -/
def obis_write_disk_request (url : String) (kwargs : Kwargs) : RequestsGetCall :=
⟨url, none, none, true, kwargs⟩

/-- The mutable state of an `OBISQueryResult` instance: `__init__` assigns
nothing, so both attributes start absent; `search`/`taxon`/`annotations`
assign both. -/
structure FacadeState where
  url : Option String
  args : Option Args

/-- A freshly constructed `OBISQueryResult()`. -/
def OBISQueryResult.init : FacadeState := ⟨none, none⟩

/-- `OBISQueryResult.search`: normalise `scientificname`, set `self.url`
and `self.args`, call `obis_GET`.  When `handle_arrstr` returns `None`,
`obis_baseurl + "taxon/" + scientificname` raises `TypeError` before the
state is written or any request is issued; the result then does not depend
on the network response `resp`. -/
def OBISQueryResult.search (st : FacadeState) (scientificname : StrArg)
    (resp : Response) : FacadeState × Except PyError Json :=
match handle_arrstr scientificname with
| none => (st, .error .typeError)
| some name =>
    let st' : FacadeState :=
      ⟨some (obis_baseurl ++ "taxon/" ++ name), some [("scientificname", Json.str name)]⟩
    (st', obis_GET resp jsonCtype)

/-- The `requests.get` call `search` issues (via `obis_GET`) for a given
`scientificname` and transport kwargs; `.error .typeError` when the URL
concatenation fails before any request is made. -/
def search_request (scientificname : StrArg) (kwargs : Kwargs) :
    Except PyError RequestsGetCall :=
match handle_arrstr scientificname with
| none => .error .typeError
| some name =>
    .ok (obis_GET_request (obis_baseurl ++ "taxon/" ++ name)
          [("scientificname", Json.str name)] kwargs)

/-- `OBISQueryResult.taxon`: set `self.url` to `base + "taxon/" + str(id)`
and `self.args` to the empty dict, call `obis_GET`. -/
def OBISQueryResult.taxon (_st : FacadeState) (id : Int) (resp : Response) :
    FacadeState × Except PyError Json :=
let st' : FacadeState := ⟨some (obis_baseurl ++ "taxon/" ++ toString id), some []⟩
(st', obis_GET resp jsonCtype)

/-- The `requests.get` call `taxon` issues via `obis_GET`. -/
def taxon_request (id : Int) (kwargs : Kwargs) : RequestsGetCall :=
obis_GET_request (obis_baseurl ++ "taxon/" ++ toString id) [] kwargs

/-- `OBISQueryResult.annotations`: set `self.url` to
`base + "taxon/annotations"`, normalise `scientificname` into `self.args`
(the dict value is `None` when normalisation yields `None`), call
`obis_GET`. -/
def OBISQueryResult.annotations (_st : FacadeState) (scientificname : StrArg)
    (resp : Response) : FacadeState × Except PyError Json :=
let v : Json := match handle_arrstr scientificname with
  | none => Json.null
  | some s => Json.str s
let st' : FacadeState :=
  ⟨some (obis_baseurl ++ "taxon/annotations"), some [("scientificname", v)]⟩
(st', obis_GET resp jsonCtype)

/-- The `requests.get` call `annotations` issues via `obis_GET`. -/
def annotations_request (scientificname : StrArg) (kwargs : Kwargs) : RequestsGetCall :=
let v : Json := match handle_arrstr scientificname with
  | none => Json.null
  | some s => Json.str s
obis_GET_request (obis_baseurl ++ "taxon/annotations") [("scientificname", v)] kwargs

/-- `OBISQueryResult.get_search_url`:
`self.url + "?" + urlencode({k: v for k, v in self.args.items() if not v == None})`.
Reading an attribute that was never assigned raises `AttributeError`;
`self.url` is read first. -/
def OBISQueryResult.get_search_url (st : FacadeState) : Except PyError String :=
match st.url with
| none => .error (.attributeError "url")
| some url =>
    match st.args with
    | none => .error (.attributeError "args")
    | some args => .ok (url ++ "?" ++ urlencode (dropNone args))

/-- `OBISQueryResult.lookup_taxon` sends
`requests.get(f"https://api.obis.org/v3/taxon/complete/{scientificname}")`
and returns `res.json()`.  Its Python signature takes no `**kwargs`: a call
carrying any keyword option raises `TypeError` ("unexpected keyword
argument") before any request is issued. -/
def lookup_taxon_request (scientificname : Json) (kwargs : Kwargs) :
    Except PyError RequestsGetCall :=
if kwargs.isEmpty then
  .ok ⟨"https://api.obis.org/v3/taxon/complete/" ++ scientificname.pyStr,
       none, none, false, []⟩
else .error .typeError

/-- `self.lookup_taxon(v)[0]["id"]`: index the JSON-decoded lookup response
at `[0]`, then at `["id"]`, with Python's error behaviour. `lookupNet`
models the network: the JSON body the complete-name endpoint returns for a
given interpolated name. -/
def lookup_taxon_first_id (lookupNet : String → Json) (v : Json) :
    Except PyError Json := do
  let j := lookupNet v.pyStr
  let first ← match j with
    | .arr (x :: _) => Except.ok x
    | .arr [] => Except.error PyError.indexError
    | _ => Except.error PyError.typeError
  match first with
  | .obj fs =>
      match List.lookup "id" fs with
      | some idv => Except.ok idv
      | none => Except.error (PyError.keyError "id")
  | _ => Except.error PyError.typeError

/-- `OBISQueryResult.get_mapper_url`: when `self.args["taxonid"]` is falsy
and `self.args["scientificname"]` truthy, write
`self.args["taxonid"] = self.lookup_taxon(...)[0]["id"]` into the cached
args, then serialize `"https://mapper.obis.org/" + "?" + urlencode(...)`.
The dict accesses follow Python's order: `self.args["taxonid"]` is
evaluated first and raises `KeyError` when the key is missing; the `and`
short-circuits, so `self.args["scientificname"]` is only read when the
`taxonid` value is falsy. -/
def OBISQueryResult.get_mapper_url (st : FacadeState) (lookupNet : String → Json) :
    FacadeState × Except PyError String :=
match st.args with
| none => (st, .error (.attributeError "args"))
| some args =>
    match dictGet args "taxonid" with
    | .error e => (st, .error e)
    | .ok tid =>
        if tid.truthy then
          (st, .ok ("https://mapper.obis.org/" ++ "?" ++ urlencode (dropNone args)))
        else
          match dictGet args "scientificname" with
          | .error e => (st, .error e)
          | .ok sn =>
              if sn.truthy then
                match lookup_taxon_first_id lookupNet sn with
                | .error e => (st, .error e)
                | .ok idv =>
                    let args' := dictSet args "taxonid" idv
                    (⟨st.url, some args'⟩,
                     .ok ("https://mapper.obis.org/" ++ "?" ++ urlencode (dropNone args')))
              else
                (st, .ok ("https://mapper.obis.org/" ++ "?" ++ urlencode (dropNone args)))

/-- The URL Builder contract stated from the spec's words, for comparison
with `build_api_url`: the query string includes only entries whose value is
not absent, each such entry exactly once, percent-encoded, in the mapping's
insertion order. -/
def queryStringSpec (args : Args) : String :=
String.intercalate "&"
  (args.filterMap (fun kv =>
    if kv.2.isNull then none
    else some (quote_plus kv.1 ++ "=" ++ quote_plus kv.2.pyStr)))

/-- The encoded pairs of the entries that survive the `is not None` filter
are exactly the in-order image of the non-absent entries. -/
theorem encodePairs_dropNone (args : Args) :
    encodePairs (dropNone args) =
      args.filterMap (fun kv =>
        if kv.2.isNull then none
        else some (quote_plus kv.1 ++ "=" ++ quote_plus kv.2.pyStr)) := by
  induction args with
  | nil => rfl
  | cons kv rest ih =>
      cases h : kv.2.isNull <;>
        simp [encodePairs, dropNone, List.filter_cons, List.filterMap_cons, h] <;>
        simpa [encodePairs, dropNone] using ih

/-- C1: for every response to `obis_GET`, the checks happen in this order:
a 4xx/5xx status raises the HTTP-status error before any content-type
comparison (the result is the HTTP error whatever the content type); on a
non-failure status a content-type mismatch raises `NoResultException` and
JSON parsing is never attempted (the result is the mismatch error whatever
`out.json()` would have produced); otherwise the JSON-decoded body is
returned. -/
theorem c1_obis_GET_check_order (resp : Response) (ctype : String) :
    (400 ≤ resp.status ∧ resp.status < 600 →
      obis_GET resp ctype = .error (.httpError resp.status)) ∧
    (¬(400 ≤ resp.status ∧ resp.status < 600) → resp.contentType ≠ ctype →
      obis_GET resp ctype =
        .error (.noResult ("content-type did not equal " ++ ctype))) ∧
    (¬(400 ≤ resp.status ∧ resp.status < 600) → resp.contentType = ctype →
      obis_GET resp ctype = resp.jsonResult) := by
  refine ⟨fun h => ?_, fun h hc => ?_, fun h hc => ?_⟩
  · simp [obis_GET, raise_for_status, stopifnot, h, Bind.bind, Except.bind]
  · simp [obis_GET, raise_for_status, stopifnot, h, hc, Bind.bind, Except.bind]
  · simp [obis_GET, raise_for_status, stopifnot, h, hc, Bind.bind, Except.bind]

/-- Concrete instance of C1: a 404 with the wrong content type fails with
the HTTP error; a 200 with content type `text/html` fails with the
content-type error even though the body is not valid JSON (parsing is never
attempted); a 200 with the expected content type returns the decoded
body. -/
theorem c1_obis_GET_check_order_witness :
    obis_GET ⟨404, "text/html", Except.error PyError.jsonDecodeError⟩ jsonCtype =
      .error (.httpError 404) ∧
    obis_GET ⟨200, "text/html", Except.error PyError.jsonDecodeError⟩ jsonCtype =
      .error (.noResult ("content-type did not equal " ++ jsonCtype)) ∧
    obis_GET ⟨200, jsonCtype, Except.ok (Json.str "body")⟩ jsonCtype =
      .ok (Json.str "body") :=
  ⟨(c1_obis_GET_check_order ⟨404, "text/html", Except.error PyError.jsonDecodeError⟩
      jsonCtype).1 (by decide),
   (c1_obis_GET_check_order ⟨200, "text/html", Except.error PyError.jsonDecodeError⟩
      jsonCtype).2.1 (by decide) (by decide),
   (c1_obis_GET_check_order ⟨200, jsonCtype, Except.ok (Json.str "body")⟩
      jsonCtype).2.2 (by decide) rfl⟩

/-- C2: `build_api_url` produces `base ++ "?" ++` the url-encoded query
string; the encoded pairs are exactly the in-order image of the entries
whose value is not absent (absent entries never appear, present entries
appear exactly once, percent-encoded, in insertion order), and deleting an
absent-valued entry from the mapping leaves the built URL unchanged. -/
theorem c2_build_api_url_contract (url : String) (args : Args) :
    build_api_url url args = url ++ "?" ++ queryStringSpec args ∧
    encodePairs (dropNone args) =
      args.filterMap (fun kv =>
        if kv.2.isNull then none
        else some (quote_plus kv.1 ++ "=" ++ quote_plus kv.2.pyStr)) ∧
    (∀ pre post k, build_api_url url (pre ++ (k, Json.null) :: post) =
      build_api_url url (pre ++ post)) := by
  refine ⟨?_, encodePairs_dropNone args, ?_⟩
  · simp [build_api_url, urlencode, queryStringSpec, encodePairs_dropNone]
  · intro pre post k
    simp [build_api_url, urlencode, dropNone, List.filter_append, List.filter_cons,
      Json.isNull]

/-- C4: `handle_arrstr` returns nothing on an absent input, returns a
string unchanged, and otherwise joins the elements with `","`; in
particular on `["Mola mola", "Abra alba"]` it returns
`"Mola mola,Abra alba"` and on `"Mola mola"` it returns `"Mola mola"`. -/
theorem c4_handle_arrstr_contract :
    handle_arrstr .pynone = none ∧
    (∀ s, handle_arrstr (.str s) = some s) ∧
    (∀ xs, handle_arrstr (.arr xs) = some (String.intercalate "," xs)) ∧
    handle_arrstr (.arr ["Mola mola", "Abra alba"]) = some "Mola mola,Abra alba" ∧
    handle_arrstr (.str "Mola mola") = some "Mola mola" :=
  ⟨rfl, fun _ => rfl, fun _ => rfl, by decide, rfl⟩

/-- C5: `handle_arrint` returns nothing on an absent input, returns an
integer unchanged (still an integer, not a string), and otherwise joins
the string forms of the elements with `","`; in particular on `[1, 2, 3]`
it returns the string `"1,2,3"` and on `5` it returns the integer `5`. -/
theorem c5_handle_arrint_contract :
    handle_arrint .pynone = none ∧
    (∀ n, handle_arrint (.int n) = some (.int n)) ∧
    (∀ xs, handle_arrint (.arr xs) =
      some (.str (String.intercalate "," (xs.map toString)))) ∧
    handle_arrint (.arr [1, 2, 3]) = some (.str "1,2,3") ∧
    handle_arrint (.int 5) = some (.int 5) :=
  ⟨rfl, fun _ => rfl, fun _ => rfl, by decide, rfl⟩

/-- C6: `search` with an absent `scientificname` fails with a `TypeError`
(from concatenating the base URL with the absent normalised name) for
every network response — the result does not depend on `resp`, so the
failure happens before any HTTP request — and the request descriptor shows
no `requests.get` call is issued. -/
theorem c6_search_absent_name (st : FacadeState) (resp : Response) (kwargs : Kwargs) :
    OBISQueryResult.search st .pynone resp = (st, .error .typeError) ∧
    search_request .pynone kwargs = .error .typeError :=
  ⟨rfl, rfl⟩

/-- C8: `get_search_url` on a freshly constructed `OBISQueryResult`, before
any of `search`, `taxon` or `annotations` has run, fails (reading the
never-assigned `self.url` raises `AttributeError`). -/
theorem c8_get_search_url_fresh :
    OBISQueryResult.get_search_url OBISQueryResult.init =
      .error (.attributeError "url") :=
  rfl

/-- C3: `search(scientificname="Mola mola")` builds exactly
`https://api.obis.org/v3/taxon/Mola mola?scientificname=Mola+mola` (the
state's serialized URL/query pair), and on a 200 response with the expected
JSON content type it returns the JSON-decoded body unchanged. -/
theorem c3_search_mola_mola (st : FacadeState) (resp : Response) (j : Json)
    (hs : resp.status = 200) (hc : resp.contentType = jsonCtype)
    (hj : resp.jsonResult = Except.ok j) :
    (OBISQueryResult.search st (.str "Mola mola") resp).2 = Except.ok j ∧
    OBISQueryResult.get_search_url
        (OBISQueryResult.search st (.str "Mola mola") resp).1 =
      Except.ok "https://api.obis.org/v3/taxon/Mola mola?scientificname=Mola+mola" := by
  constructor
  · simp [OBISQueryResult.search, handle_arrstr, obis_GET, raise_for_status, stopifnot,
      hs, hc, hj, jsonCtype, Bind.bind, Except.bind]
  · rfl

/-- Concrete instance of C3 at a 200 JSON response whose decoded body is
the number 7. -/
theorem c3_search_mola_mola_witness :
    (OBISQueryResult.search OBISQueryResult.init (.str "Mola mola")
        ⟨200, jsonCtype, Except.ok (Json.num 7)⟩).2 = Except.ok (Json.num 7) ∧
    OBISQueryResult.get_search_url
        (OBISQueryResult.search OBISQueryResult.init (.str "Mola mola")
          ⟨200, jsonCtype, Except.ok (Json.num 7)⟩).1 =
      Except.ok "https://api.obis.org/v3/taxon/Mola mola?scientificname=Mola+mola" :=
  c3_search_mola_mola OBISQueryResult.init ⟨200, jsonCtype, Except.ok (Json.num 7)⟩
    (Json.num 7) rfl rfl rfl

/-- C7: on any facade state whose cached args dict lacks a `"taxonid"` key,
`get_mapper_url` fails with the `KeyError` from the `args["taxonid"]`
access, and the state is unchanged. -/
theorem c7_get_mapper_url_missing_taxonid (url : Option String) (args : Args)
    (lookupNet : String → Json) (h : List.lookup "taxonid" args = none) :
    OBISQueryResult.get_mapper_url ⟨url, some args⟩ lookupNet =
      (⟨url, some args⟩, .error (.keyError "taxonid")) := by
  simp [OBISQueryResult.get_mapper_url, dictGet, h]

/-- Concrete instances of C7: the state left by
`search(scientificname="Mola mola")` (args hold only `scientificname`) and
the state left by `taxon(402913)` (args empty) both make `get_mapper_url`
fail with `KeyError("taxonid")`. -/
theorem c7_get_mapper_url_missing_taxonid_witness :
    OBISQueryResult.get_mapper_url
        (OBISQueryResult.search OBISQueryResult.init (.str "Mola mola")
          ⟨200, jsonCtype, Except.ok Json.null⟩).1 (fun _ => Json.null) =
      ((OBISQueryResult.search OBISQueryResult.init (.str "Mola mola")
          ⟨200, jsonCtype, Except.ok Json.null⟩).1,
       .error (.keyError "taxonid")) ∧
    OBISQueryResult.get_mapper_url
        (OBISQueryResult.taxon OBISQueryResult.init 402913
          ⟨200, jsonCtype, Except.ok Json.null⟩).1 (fun _ => Json.null) =
      ((OBISQueryResult.taxon OBISQueryResult.init 402913
          ⟨200, jsonCtype, Except.ok Json.null⟩).1,
       .error (.keyError "taxonid")) :=
  ⟨c7_get_mapper_url_missing_taxonid
      (some "https://api.obis.org/v3/taxon/Mola mola")
      [("scientificname", Json.str "Mola mola")] (fun _ => Json.null) rfl,
   c7_get_mapper_url_missing_taxonid
      (some "https://api.obis.org/v3/taxon/402913") [] (fun _ => Json.null) rfl⟩

/-- C9 counterexample: `lookup_taxon` is a fetch function (it issues a GET
to the complete-name endpoint) but its signature takes no transport keyword
options; calling it with one (`timeout=5`) raises `TypeError` instead of
forwarding the option to the transport layer. -/
theorem c9_lookup_taxon_rejects_kwargs :
    lookup_taxon_request (Json.str "Mola mola") [("timeout", Json.num 5)] =
      .error .typeError :=
  rfl

/-- C9 amended: `obis_GET`, `obis_write_disk`, `search`, `taxon` and
`annotations` accept transport keyword options and forward them verbatim to
the `requests.get` call; `lookup_taxon` alone accepts none (any keyword
option makes the call fail with a `TypeError` before a request is
issued). -/
theorem c9_kwargs_forwarding :
    (∀ url args kwargs, (obis_GET_request url args kwargs).kwargs = kwargs) ∧
    (∀ url kwargs, (obis_write_disk_request url kwargs).kwargs = kwargs) ∧
    (∀ s kwargs, (search_request (StrArg.str s) kwargs).map RequestsGetCall.kwargs =
      Except.ok kwargs) ∧
    (∀ xs kwargs, (search_request (StrArg.arr xs) kwargs).map RequestsGetCall.kwargs =
      Except.ok kwargs) ∧
    (∀ id kwargs, (taxon_request id kwargs).kwargs = kwargs) ∧
    (∀ sn kwargs, (annotations_request sn kwargs).kwargs = kwargs) ∧
    (∀ sn kwargs, kwargs ≠ [] → lookup_taxon_request sn kwargs = .error .typeError) := by
  refine ⟨fun _ _ _ => rfl, fun _ _ => rfl, fun _ _ => rfl, fun _ _ => rfl,
    fun _ _ => rfl, fun _ _ => rfl, fun sn kwargs h => ?_⟩
  cases kwargs with
  | nil => exact absurd rfl h
  | cons a l => rfl

/-- Concrete instance of the amended C9: `obis_GET` forwards a `timeout`
option verbatim, while `lookup_taxon` rejects a `verify` option with a
`TypeError`. -/
theorem c9_kwargs_forwarding_witness :
    (obis_GET_request "https://api.obis.org/v3/taxon/Mola mola"
        [("scientificname", Json.str "Mola mola")] [("timeout", Json.num 30)]).kwargs =
      [("timeout", Json.num 30)] ∧
    lookup_taxon_request (Json.str "Abra alba") [("verify", Json.bool false)] =
      .error .typeError :=
  ⟨c9_kwargs_forwarding.1 "https://api.obis.org/v3/taxon/Mola mola"
      [("scientificname", Json.str "Mola mola")] [("timeout", Json.num 30)],
   c9_kwargs_forwarding.2.2.2.2.2.2 (Json.str "Abra alba")
      [("verify", Json.bool false)] (List.cons_ne_nil _ _)⟩

/-- A key that is present in the dict is, after `d[k] = v`, present with
the new value `v`. -/
theorem mem_dictSet_of_lookup {args : Args} {k : String} {t v : Json}
    (h : List.lookup k args = some t) : (k, v) ∈ dictSet args k v := by
  rw [dictSet, if_pos (by rw [h]; rfl)]
  induction args with
  | nil => simp at h
  | cons a rest ih =>
      obtain ⟨k', v'⟩ := a
      by_cases hk : k' = k
      · subst hk; simp
      · have hne : (k == k') = false := by
          simp [Ne.symm hk]
        rw [List.lookup] at h
        simp [hne] at h
        simp only [List.map_cons]
        show (k, v) ∈ (if k' = k then (k, v) else (k', v')) :: _
        rw [if_neg hk]
        exact List.mem_cons_of_mem _ (ih h)

/-- C10: when the cached args hold a falsy `"taxonid"` and a truthy
`"scientificname"`, `get_mapper_url` rewrites the facade's cached args,
storing under `"taxonid"` the `id` of the first `lookup_taxon` match; the
serialized query then carries a `taxonid=` pair, and a subsequent
`get_search_url` on the same instance serializes that mutated mapping —
a `taxonid` parameter no `search`/`taxon`/`annotations` call stored. -/
theorem c10_get_mapper_url_mutates_args (url : String) (args : Args)
    (lookupNet : String → Json) (t s idv : Json)
    (ht : List.lookup "taxonid" args = some t) (htf : t.truthy = false)
    (hs : List.lookup "scientificname" args = some s) (hst : s.truthy = true)
    (hid : lookup_taxon_first_id lookupNet s = Except.ok idv)
    (hnn : idv.isNull = false) :
    OBISQueryResult.get_mapper_url ⟨some url, some args⟩ lookupNet =
      (⟨some url, some (dictSet args "taxonid" idv)⟩,
       Except.ok ("https://mapper.obis.org/" ++ "?" ++
         urlencode (dropNone (dictSet args "taxonid" idv)))) ∧
    (quote_plus "taxonid" ++ "=" ++ quote_plus idv.pyStr) ∈
      encodePairs (dropNone (dictSet args "taxonid" idv)) ∧
    OBISQueryResult.get_search_url ⟨some url, some (dictSet args "taxonid" idv)⟩ =
      Except.ok (url ++ "?" ++ urlencode (dropNone (dictSet args "taxonid" idv))) := by
  refine ⟨?_, ?_, rfl⟩
  · simp [OBISQueryResult.get_mapper_url, dictGet, ht, htf, hs, hst, hid]
  · have h1 : ("taxonid", idv) ∈ dictSet args "taxonid" idv := mem_dictSet_of_lookup ht
    have h2 : ("taxonid", idv) ∈ dropNone (dictSet args "taxonid" idv) :=
      List.mem_filter.mpr ⟨h1, by simp [hnn]⟩
    exact List.mem_map_of_mem _ h2

/-- Concrete instance of C10: args `{"taxonid": None,
"scientificname": "Mola mola"}` with a lookup answering
`[{"id": 293683}]`; `get_mapper_url` stores `taxonid = 293683` in the
cached args and both serializations carry the pair. -/
theorem c10_get_mapper_url_mutates_args_witness :
    OBISQueryResult.get_mapper_url
        ⟨some "https://api.obis.org/v3/taxon/Mola mola",
         some [("taxonid", Json.null), ("scientificname", Json.str "Mola mola")]⟩
        (fun _ => Json.arr [Json.obj [("id", Json.num 293683)]]) =
      (⟨some "https://api.obis.org/v3/taxon/Mola mola",
        some (dictSet [("taxonid", Json.null), ("scientificname", Json.str "Mola mola")]
          "taxonid" (Json.num 293683))⟩,
       Except.ok ("https://mapper.obis.org/" ++ "?" ++
         urlencode (dropNone (dictSet
           [("taxonid", Json.null), ("scientificname", Json.str "Mola mola")]
           "taxonid" (Json.num 293683))))) ∧
    (quote_plus "taxonid" ++ "=" ++ quote_plus (Json.num 293683).pyStr) ∈
      encodePairs (dropNone (dictSet
        [("taxonid", Json.null), ("scientificname", Json.str "Mola mola")]
        "taxonid" (Json.num 293683))) ∧
    OBISQueryResult.get_search_url
        ⟨some "https://api.obis.org/v3/taxon/Mola mola",
         some (dictSet [("taxonid", Json.null), ("scientificname", Json.str "Mola mola")]
           "taxonid" (Json.num 293683))⟩ =
      Except.ok ("https://api.obis.org/v3/taxon/Mola mola" ++ "?" ++
        urlencode (dropNone (dictSet
          [("taxonid", Json.null), ("scientificname", Json.str "Mola mola")]
          "taxonid" (Json.num 293683)))) :=
  c10_get_mapper_url_mutates_args "https://api.obis.org/v3/taxon/Mola mola"
    [("taxonid", Json.null), ("scientificname", Json.str "Mola mola")]
    (fun _ => Json.arr [Json.obj [("id", Json.num 293683)]])
    Json.null (Json.str "Mola mola") (Json.num 293683) rfl rfl rfl rfl rfl rfl
